import Mathlib

/-
Verification of src/ingestion.py (NHTSA recall extraction script).

The script is a linear sequence: build a date-ranged URL, issue one HTTP GET,
parse the body as JSON, and persist the value under the key results to a
local file with json.dump(..., indent=4).  We embed the script shallowly:

  * Json models the parsed JSON documents (numbers restricted to integers,
    which covers every value the claims mention);
  * jsonDumps models Python json.dump with indent=4 and the default
    ensure_ascii=True escaping;
  * civilFromDays / fmtDate model datetime date arithmetic and
    strftime with the pattern y-m-d, with time measured in whole days since
    1970-01-01 (the script only ever formats dates, never times);
  * run models one execution of the script: its input is the outcome of the
    single requests.get call (a network or HTTP or body-decoding failure is
    FetchOutcome.requestError, mirroring the except RequestException arm) and
    the prior content of the output file; its output is the final content of
    the output file, the process exit status, the list of printed messages,
    and the number of GET requests issued.

Python facts reflected in the model: a bare exit() raises SystemExit None and
the process exit status is 0; an uncaught exception terminates the process
with status 1; open(name, w-mode) creates or truncates the file immediately,
before the body of the with-statement runs.
-/

namespace Ingestion

/-- JSON values as parsed by response.json(); numbers restricted to integers. -/
inductive Json where
  | null : Json
  | bool (b : Bool) : Json
  | num (n : Int) : Json
  | str (s : String) : Json
  | arr (xs : List Json) : Json
  | obj (kvs : List (String × Json)) : Json
deriving Repr

/-- Hexadecimal digit, lower case, as Python json uses in unicode escapes. -/
def hexDigit (n : Nat) : Char :=
  if n < 10 then Char.ofNat (48 + n) else Char.ofNat (87 + n % 16)

/-- Four lower-case hex digits, the XXXX of a Python json unicode escape. -/
def hex4 (n : Nat) : String :=
  String.mk [hexDigit (n / 4096 % 16), hexDigit (n / 256 % 16),
             hexDigit (n / 16 % 16), hexDigit (n % 16)]

/-- Escape one character the way Python json.dump with ensure_ascii does:
named escapes for backslash, quote and the common control characters,
unicode escapes (surrogate pairs above the BMP) for everything outside
the printable ASCII range 0x20 to 0x7e. -/
def escapeChar (c : Char) : String :=
  let n := c.toNat
  if n = 34 then String.mk [Char.ofNat 92, Char.ofNat 34]
  else if n = 92 then String.mk [Char.ofNat 92, Char.ofNat 92]
  else if n = 8 then String.mk [Char.ofNat 92, Char.ofNat 98]
  else if n = 9 then String.mk [Char.ofNat 92, Char.ofNat 116]
  else if n = 10 then String.mk [Char.ofNat 92, Char.ofNat 110]
  else if n = 12 then String.mk [Char.ofNat 92, Char.ofNat 102]
  else if n = 13 then String.mk [Char.ofNat 92, Char.ofNat 114]
  else if n < 32 ∨ 126 < n then
    if n < 65536 then String.mk [Char.ofNat 92, Char.ofNat 117] ++ hex4 n
    else
      let m := n - 65536
      String.mk [Char.ofNat 92, Char.ofNat 117] ++ hex4 (55296 + m / 1024) ++
      String.mk [Char.ofNat 92, Char.ofNat 117] ++ hex4 (56320 + m % 1024)
  else String.singleton c

/-- Serialize a string as a JSON string literal (Python json, ensure_ascii). -/
def quoteStr (s : String) : String :=
  String.singleton (Char.ofNat 34) ++ String.join (s.data.map escapeChar) ++
  String.singleton (Char.ofNat 34)

/-- Indentation prefix: lvl times ind spaces, as json.dump emits before an
item nested lvl containers deep when called with indent equal to ind. -/
def pad (ind lvl : Nat) : String :=
  String.mk (List.replicate (ind * lvl) (Char.ofNat 32))

/-- Decimal digit character for n below 10. -/
def digitChar (n : Nat) : Char := Char.ofNat (48 + n)

/-- Decimal digits of n, most significant first; fuel bounds the recursion
and n below 10 to the power fuel gives the exact digits. -/
def natDigits (fuel n : Nat) : List Char :=
  match fuel with
  | 0 => []
  | fuel + 1 =>
      if n < 10 then [digitChar n]
      else natDigits fuel (n / 10) ++ [digitChar (n % 10)]

/-- Decimal representation of a natural number, as Python repr prints it. -/
def natRepr (n : Nat) : String := String.mk (natDigits (n + 1) n)

/-- Decimal representation of an integer, as Python repr prints it: a minus
sign followed by the digits when negative. -/
def intRepr (n : Int) : String :=
  if n < 0 then "-" ++ natRepr n.natAbs else natRepr n.toNat

mutual
/-- Python json.dump(v, f, indent=ind) output at nesting level lvl.  Empty
containers are rendered without newlines, non-empty containers put every
item on its own line with one extra level of indentation, items separated
by a comma-newline pair and keys from values by a colon and space. -/
def jsonDumps (ind lvl : Nat) : Json → String
  | .null => "null"
  | .bool true => "true"
  | .bool false => "false"
  | .num n => intRepr n
  | .str s => quoteStr s
  | .arr [] => "[]"
  | .arr (x :: xs) =>
      "[\n" ++ pad ind (lvl + 1) ++ jsonDumps ind (lvl + 1) x ++
      dumpArrRest ind (lvl + 1) xs ++ "\n" ++ pad ind lvl ++ "]"
  | .obj [] => "\x7b\x7d"
  | .obj ((k, v) :: kvs) =>
      "\x7b\n" ++ pad ind (lvl + 1) ++ quoteStr k ++ ": " ++
      jsonDumps ind (lvl + 1) v ++
      dumpObjRest ind (lvl + 1) kvs ++ "\n" ++ pad ind lvl ++ "\x7d"

/-- Remaining array items, each preceded by the separator and indentation. -/
def dumpArrRest (ind lvl : Nat) : List Json → String
  | [] => ""
  | x :: xs => ",\n" ++ pad ind lvl ++ jsonDumps ind lvl x ++ dumpArrRest ind lvl xs

/-- Remaining object members, each preceded by the separator and indentation. -/
def dumpObjRest (ind lvl : Nat) : List (String × Json) → String
  | [] => ""
  | (k, v) :: kvs =>
      ",\n" ++ pad ind lvl ++ quoteStr k ++ ": " ++ jsonDumps ind lvl v ++
      dumpObjRest ind lvl kvs
end

/-- Python dict lookup on the members of a parsed JSON object: the first
binding of the key (json.loads keeps keys unique). -/
def jsonLookup (kvs : List (String × Json)) (k : String) : Option Json :=
  match kvs with
  | [] => none
  | (k2, v) :: rest => if k2 = k then some v else jsonLookup rest k

/-- Rendering of a Python value inside an f-string, i.e. str(value): strings
appear bare, True and False and None capitalized, containers via repr. -/
def pyFStr : Json → String
  | .null => "None"
  | .bool true => "True"
  | .bool false => "False"
  | .num n => intRepr n
  | .str s => s
  | v => reprStr v

/-- Gregorian calendar date of day z, where z counts days since 1970-01-01
(the civil-from-days algorithm used by every proleptic Gregorian library).
Returns (year, month, day). -/
def civilFromDays (z : Nat) : Nat × Nat × Nat :=
  let z2 := z + 719468
  let era := z2 / 146097
  let doe := z2 % 146097
  let yoe := (doe - doe / 1460 + doe / 36524 - doe / 146096) / 365
  let y := yoe + era * 400
  let doy := doe - (365 * yoe + yoe / 4 - yoe / 100)
  let mp := (5 * doy + 2) / 153
  let d := doy - (153 * mp + 2) / 5 + 1
  let m := if mp < 10 then mp + 3 else mp - 9
  (if m ≤ 2 then y + 1 else y, m, d)

/-- Two-digit zero padding, as strftime emits for months and days. -/
def pad2 (n : Nat) : String :=
  if n < 10 then "0" ++ natRepr n else natRepr n

/-- strftime with pattern year-month-day for the calendar date of ordinal t. -/
def fmtDate (t : Nat) : String :=
  let c := civilFromDays t
  natRepr c.1 ++ "-" ++ pad2 c.2.1 ++ "-" ++ pad2 c.2.2

/-- strftime with pattern year_month_day, used for the output filename. -/
def fmtDateUnderscore (t : Nat) : String :=
  let c := civilFromDays t
  natRepr c.1 ++ "_" ++ pad2 c.2.1 ++ "_" ++ pad2 c.2.2

/-- today minus timedelta(days equal to 3 times 365): the ordinal 1095 days
earlier. -/
def threeYearsAgo (t : Nat) : Nat := t - 3 * 365

/-- start_date_str of the script: the formatted date three_years_ago. -/
def startDateStr (t : Nat) : String := fmtDate (threeYearsAgo t)

/-- today_str of the script: the formatted current date. -/
def todayStr (t : Nat) : String := fmtDate t

/-- API_ENDPOINT of the script: the recallsByDateRange URL with the embedded
fromDate and toDate query parameters. -/
def API_ENDPOINT (t : Nat) : String :=
  "https://api.nhtsa.gov/recalls/recallsByDateRange?fromDate=" ++
  startDateStr t ++ "&toDate=" ++ todayStr t

/-- OUTPUT_FILENAME of the script, named from the current date. -/
def OUTPUT_FILENAME (t : Nat) : String :=
  "nhtsa_recalls_" ++ fmtDateUnderscore t ++ ".json"

/-- Outcome of the single requests.get call plus response.raise_for_status
and response.json(): requestError covers every RequestException (network
failure, non-2xx status, body that fails JSON decoding) with the message the
except arm interpolates; ok carries the parsed document. -/
inductive FetchOutcome where
  | requestError (msg : String) : FetchOutcome
  | ok (doc : Json) : FetchOutcome
deriving Repr

/-- Observable result of one execution of the script: the content of the
output file afterwards (none if no such file exists), the process exit
status, the messages printed in order, and how many GET requests were
issued. -/
structure RunResult where
  file : Option String
  exitCode : Nat
  prints : List String
  requests : Nat
deriving Repr, DecidableEq

/-- Messages printed by steps 2 and 3 before the request is made. -/
def configPrints (t : Nat) : List String :=
  ["Configuring date range and API endpoint...",
   "Data will be fetched for the period: " ++ startDateStr t ++ " to " ++ todayStr t,
   "Output will be saved to: " ++ OUTPUT_FILENAME t,
   "\nFetching data from NHTSA API..."]

/-- The line the except RequestException arm prints. -/
def requestErrorPrint (e : String) : String :=
  "An error occurred with the API request: " ++ e

/-- The line printed on success of the fetch, interpolating
raw_data.get of Count with default N/A. -/
def fetchedPrint (kvs : List (String × Json)) : String :=
  "Successfully fetched " ++
  pyFStr ((jsonLookup kvs "Count").getD (.str "N/A")) ++
  " recall campaigns."

/-- The line printed at the start of step 5. -/
def savingPrint (t : Nat) : String :=
  "Saving raw data to local file: " ++ OUTPUT_FILENAME t ++ "..."

/-- The line the except KeyError arm prints. -/
def missingResultsPrint : String :=
  "Error: The 'results' key was not found in the API response. Cannot save file."

/-- The final line of the script. -/
def finalPrint : String := "\nPhase 1 (Extraction) complete."

/-- One execution of src/ingestion.py.  t is the current date as days since
1970-01-01, fetch the outcome of the single GET, initFile the prior content
of the output file.  On a RequestException the script prints the error and
calls bare exit(), so the process ends with status 0 and the file is
untouched.  On success, if the document is not a dict the attribute access
raw_data.get on line 58 raises an uncaught AttributeError inside the print
argument, terminating the process with status 1 before step 5 and leaving
the file untouched.  Otherwise step 5 opens the output file in write mode
(creating or truncating it immediately) and then evaluates the subscript
raw_data with key results: if the key is present json.dump writes its
serialization with indent 4; if absent the KeyError arm prints its message
and the script continues to the final print, ending with status 0 and the
file left empty. -/
def run (t : Nat) (fetch : FetchOutcome) (initFile : Option String) : RunResult :=
  match fetch with
  | .requestError e =>
      { file := initFile, exitCode := 0,
        prints := configPrints t ++ [requestErrorPrint e], requests := 1 }
  | .ok doc =>
      match doc with
      | .obj kvs =>
          match jsonLookup kvs "results" with
          | some v =>
              { file := some (jsonDumps 4 0 v), exitCode := 0,
                prints := configPrints t ++
                  [fetchedPrint kvs, savingPrint t,
                   "Data successfully saved.", finalPrint],
                requests := 1 }
          | none =>
              { file := some "", exitCode := 0,
                prints := configPrints t ++
                  [fetchedPrint kvs, savingPrint t,
                   missingResultsPrint, finalPrint],
                requests := 1 }
      | _ =>
          { file := initFile, exitCode := 1,
            prints := configPrints t, requests := 1 }

end Ingestion

namespace Ingestion

/-- Digit lists from a positive fuel are never empty. -/
theorem natDigits_ne_nil (fuel n : Nat) (h : 0 < fuel) : natDigits fuel n ≠ [] := by
  cases fuel with
  | zero => exact absurd h (by decide)
  | succ fuel =>
      simp only [natDigits]
      split
      · simp
      · simp

/-- The decimal representation of a natural number is nonempty. -/
theorem natRepr_length_pos (n : Nat) : 0 < (natRepr n).length := by
  have h := natDigits_ne_nil (n + 1) n (by omega)
  have hl : (natRepr n).length = (natDigits (n + 1) n).length := rfl
  rw [hl]
  exact List.length_pos.mpr h

/-- The decimal representation of an integer is nonempty. -/
theorem intRepr_length_pos (n : Int) : 0 < (intRepr n).length := by
  unfold intRepr
  split
  · rw [String.length_append]
    have := natRepr_length_pos n.natAbs
    omega
  · exact natRepr_length_pos n.toNat

/-- Serialized JSON is never the empty string: every constructor opens with at
least one character. -/
theorem jsonDumps_length_pos (ind lvl : Nat) (v : Json) :
    0 < (jsonDumps ind lvl v).length := by
  cases v with
  | null =>
      simp only [jsonDumps]
      decide
  | bool b =>
      cases b <;> simp only [jsonDumps] <;> decide
  | num n =>
      simp only [jsonDumps]
      exact intRepr_length_pos n
  | str s =>
      simp only [jsonDumps, quoteStr, String.length_append]
      have h1 : (String.singleton (Char.ofNat 34)).length = 1 := rfl
      omega
  | arr xs =>
      cases xs with
      | nil =>
          simp only [jsonDumps]
          decide
      | cons x xs =>
          simp only [jsonDumps, String.length_append]
          have h2 : (0 : Nat) < ("[\n" : String).length := by decide
          omega
  | obj kvs =>
      cases kvs with
      | nil =>
          simp only [jsonDumps]
          decide
      | cons kv kvs =>
          obtain ⟨k, w⟩ := kv
          simp only [jsonDumps, String.length_append]
          have h2 : (0 : Nat) < ("\x7b\n" : String).length := by decide
          omega

/-- Serialized JSON is never the empty string. -/
theorem jsonDumps_ne_empty (ind lvl : Nat) (v : Json) :
    jsonDumps ind lvl v ≠ "" := by
  intro h
  have := jsonDumps_length_pos ind lvl v
  rw [h] at this
  exact absurd this (by decide)

/-- A serialized array opens with a left square bracket. -/
theorem jsonDumps_arr_head (ind lvl : Nat) (xs : List Json) :
    (jsonDumps ind lvl (.arr xs)).data.head? = some (Char.ofNat 91) := by
  cases xs with
  | nil =>
      simp only [jsonDumps]
      decide
  | cons x xs => simp [jsonDumps, String.data_append]

/-- A serialized object opens with a left curly brace. -/
theorem jsonDumps_obj_head (ind lvl : Nat) (kvs : List (String × Json)) :
    (jsonDumps ind lvl (.obj kvs)).data.head? = some (Char.ofNat 123) := by
  cases kvs with
  | nil =>
      simp only [jsonDumps]
      decide
  | cons kv kvs =>
      obtain ⟨k, w⟩ := kv
      simp [jsonDumps, String.data_append]

/-- A serialized array is never textually equal to a serialized object: their
first characters differ. -/
theorem jsonDumps_arr_ne_obj (ind lvl : Nat) (xs : List Json)
    (kvs : List (String × Json)) :
    jsonDumps ind lvl (.arr xs) ≠ jsonDumps ind lvl (.obj kvs) := by
  intro h
  have ha := jsonDumps_arr_head ind lvl xs
  have hb := jsonDumps_obj_head ind lvl kvs
  rw [h, hb] at ha
  exact absurd (Option.some.inj ha) (by decide)

/-- v occurs inside w: w itself, an element of an array inside w, or the value
of an object member inside w.  This is the sub-value relation of the persisted
invariant (the persisted content is a subset, or the whole, of the response). -/
inductive Subvalue : Json → Json → Prop where
  | refl (v : Json) : Subvalue v v
  | inArr {v w : Json} {xs : List Json} :
      Subvalue v w → w ∈ xs → Subvalue v (.arr xs)
  | inObj {v w : Json} {k : String} {kvs : List (String × Json)} :
      Subvalue v w → (k, w) ∈ kvs → Subvalue v (.obj kvs)

/-- A successful dict lookup returns a value bound in the member list. -/
theorem jsonLookup_mem {kvs : List (String × Json)} {k : String} {v : Json}
    (h : jsonLookup kvs k = some v) : (k, v) ∈ kvs := by
  induction kvs with
  | nil => simp [jsonLookup] at h
  | cons kv rest ih =>
      obtain ⟨k2, w⟩ := kv
      by_cases hk : k2 = k
      · subst hk
        simp [jsonLookup] at h
        subst h
        exact List.mem_cons_self _ _
      · simp [jsonLookup, hk] at h
        exact List.mem_cons_of_mem _ (ih h)

/-- A value found under a key of an object is a sub-value of that object. -/
theorem subvalue_of_lookup {kvs : List (String × Json)} {k : String} {v : Json}
    (h : jsonLookup kvs k = some v) : Subvalue v (.obj kvs) :=
  Subvalue.inObj (Subvalue.refl v) (jsonLookup_mem h)

/-- The property the persisted-content invariant asserts of a run whose output
file holds s: the fetch succeeded with some document and s is the indent-4
serialization of a sub-value (or the whole) of that document. -/
def ValidPersist (fetch : FetchOutcome) (s : String) : Prop :=
  ∃ doc v, fetch = FetchOutcome.ok doc ∧ Subvalue v doc ∧ s = jsonDumps 4 0 v

end Ingestion

namespace Ingestion

/-- C1 counterexample: the claim says that when the fetched document lacks the
key results no output file is written; but for the concrete document with only
a Count member the run leaves an output file (created empty by the write-mode
open that precedes the failing subscript). -/
theorem C1_counterexample :
    (run 20738 (FetchOutcome.ok (Json.obj [("Count", Json.num 2)])) none).file ≠
      none := by
  intro h
  rw [show (run 20738 (FetchOutcome.ok (Json.obj [("Count", Json.num 2)])) none).file
        = some "" from rfl] at h
  exact Option.noConfusion h

/-- C1 (amended): for every fetched document (a JSON object) in which the key
results is absent, the persist step is aborted before any JSON content is
written and the run reports the missing-field condition, but the output file
is still created, truncated to empty, because open in write mode precedes the
failing subscript. -/
theorem C1_missing_results (t : Nat) (kvs : List (String × Json))
    (init : Option String) (h : jsonLookup kvs "results" = none) :
    (run t (FetchOutcome.ok (Json.obj kvs)) init).file = some "" ∧
    missingResultsPrint ∈ (run t (FetchOutcome.ok (Json.obj kvs)) init).prints := by
  constructor
  · simp only [run, h]
  · simp only [run, h]
    simp [configPrints]

/-- C1 witness: the amended claim at the document with only a Count member,
run over a pre-existing output file. -/
theorem C1_witness :
    jsonLookup [("Count", Json.num 2)] "results" = none ∧
    ((run 0 (FetchOutcome.ok (Json.obj [("Count", Json.num 2)])) (some "old")).file
        = some "" ∧
      missingResultsPrint ∈
        (run 0 (FetchOutcome.ok (Json.obj [("Count", Json.num 2)])) (some "old")).prints) :=
  ⟨rfl, C1_missing_results 0 [("Count", Json.num 2)] (some "old") rfl⟩

/-- C2 counterexample: the claim says that whenever the output file exists
after a run its content is valid JSON equal to a sub-value of a successfully
fetched response; but the run over a document without results leaves the file
holding the empty string, which is not the serialization of any JSON value. -/
theorem C2_counterexample :
    (run 0 (FetchOutcome.ok (Json.obj [("Count", Json.num 0)])) none).file
      = some "" ∧
    ¬ ValidPersist (FetchOutcome.ok (Json.obj [("Count", Json.num 0)])) "" := by
  constructor
  · rfl
  · rintro ⟨doc, v, hf, hsub, hs⟩
    exact jsonDumps_ne_empty 4 0 v hs.symm

/-- C2 (amended): for every run started with no output file present, if the
output file afterwards holds a nonempty string, that string is the indent-4
serialization of a sub-value (the results member) of the single successfully
fetched response; the only other possible file state is the empty file left
by a response that lacks the results key. -/
theorem C2_invariant (t : Nat) (fetch : FetchOutcome) (s : String)
    (hfile : (run t fetch none).file = some s) (hne : s ≠ "") :
    ValidPersist fetch s := by
  cases fetch with
  | requestError e => exact absurd hfile (by simp [run])
  | ok doc =>
      cases doc with
      | obj kvs =>
          cases h : jsonLookup kvs "results" with
          | none =>
              simp only [run, h] at hfile
              exact absurd (Option.some.inj hfile).symm hne
          | some v =>
              refine ⟨Json.obj kvs, v, rfl, subvalue_of_lookup h, ?_⟩
              simp only [run, h] at hfile
              exact (Option.some.inj hfile).symm
      | null => exact absurd hfile (by simp [run])
      | bool b => exact absurd hfile (by simp [run])
      | num n => exact absurd hfile (by simp [run])
      | str s2 => exact absurd hfile (by simp [run])
      | arr xs => exact absurd hfile (by simp [run])

/-- C2 witness: the amended invariant at a response whose results member is
the empty array, persisted as the two-character string of brackets. -/
theorem C2_witness :
    (run 1 (FetchOutcome.ok (Json.obj [("results", Json.arr [])])) none).file
      = some "[]" ∧
    ("[]" : String) ≠ "" ∧
    ValidPersist (FetchOutcome.ok (Json.obj [("results", Json.arr [])])) "[]" :=
  ⟨by decide, by decide,
   C2_invariant 1 (FetchOutcome.ok (Json.obj [("results", Json.arr [])])) "[]"
     (by decide) (by decide)⟩

/-- C3 counterexample: the claim says every run with a failed fetch or failed
validation ends with a non-zero exit status; but the fetch-failure run calls
the bare builtin exit, whose SystemExit carries None, so the process status
is 0, and the missing-results run also ends with status 0. -/
theorem C3_counterexample :
    (run 0 (FetchOutcome.requestError "Connection refused") none).exitCode = 0 ∧
    (run 0 (FetchOutcome.ok (Json.obj [("Count", Json.num 7)])) none).exitCode
      = 0 := by
  constructor <;> rfl

/-- C3 (amended): on a fetch failure the process prints the request-error
line and terminates immediately (nothing is printed after it), but with exit
status zero, the status of a bare exit call; on a validation failure (a
document without the key results) the process does not terminate early at
all: it prints through to the final completion line and ends with status
zero. -/
theorem C3_exit_status (t : Nat) (e : String) (kvs : List (String × Json))
    (initA initB : Option String) (h : jsonLookup kvs "results" = none) :
    ((run t (FetchOutcome.requestError e) initA).exitCode = 0 ∧
     (run t (FetchOutcome.requestError e) initA).prints
        = configPrints t ++ [requestErrorPrint e]) ∧
    ((run t (FetchOutcome.ok (Json.obj kvs)) initB).exitCode = 0 ∧
     (run t (FetchOutcome.ok (Json.obj kvs)) initB).prints
        = configPrints t ++
          [fetchedPrint kvs, savingPrint t, missingResultsPrint, finalPrint]) := by
  refine ⟨⟨rfl, rfl⟩, ?_, ?_⟩ <;> simp only [run, h]

/-- C3 witness: the amended exit-status behavior at a concrete refused
connection and a concrete document without results. -/
theorem C3_witness :
    jsonLookup [("Count", Json.num 1)] "results" = none ∧
    (((run 2 (FetchOutcome.requestError "timed out") none).exitCode = 0 ∧
      (run 2 (FetchOutcome.requestError "timed out") none).prints
         = configPrints 2 ++ [requestErrorPrint "timed out"]) ∧
     ((run 2 (FetchOutcome.ok (Json.obj [("Count", Json.num 1)])) none).exitCode = 0 ∧
      (run 2 (FetchOutcome.ok (Json.obj [("Count", Json.num 1)])) none).prints
         = configPrints 2 ++
           [fetchedPrint [("Count", Json.num 1)], savingPrint 2,
            missingResultsPrint, finalPrint])) :=
  ⟨rfl, C3_exit_status 2 "timed out" [("Count", Json.num 1)] none none rfl⟩

/-- C4: for every fetched document containing a results member that is an
array, the output file holds exactly the indent-4 serialization of that
array, and in particular not the serialization of the wrapping object (their
first characters already differ). -/
theorem C4_results_array_persisted (t : Nat) (kvs : List (String × Json))
    (xs : List Json) (init : Option String)
    (h : jsonLookup kvs "results" = some (Json.arr xs)) :
    (run t (FetchOutcome.ok (Json.obj kvs)) init).file
      = some (jsonDumps 4 0 (Json.arr xs)) ∧
    (run t (FetchOutcome.ok (Json.obj kvs)) init).file
      ≠ some (jsonDumps 4 0 (Json.obj kvs)) := by
  have hfile : (run t (FetchOutcome.ok (Json.obj kvs)) init).file
      = some (jsonDumps 4 0 (Json.arr xs)) := by
    simp only [run, h]
  refine ⟨hfile, ?_⟩
  rw [hfile]
  intro hc
  exact jsonDumps_arr_ne_obj 4 0 xs kvs (Option.some.inj hc)

/-- C4 witness: the concrete scenario of the specification, a response with
Count 2 and two one-member records; the output file is exactly the four-space
indented rendering of the two-element array. -/
theorem C4_witness :
    jsonLookup [("Count", Json.num 2),
        ("results", Json.arr [Json.obj [("id", Json.str "A")],
                              Json.obj [("id", Json.str "B")]])] "results"
      = some (Json.arr [Json.obj [("id", Json.str "A")],
                        Json.obj [("id", Json.str "B")]]) ∧
    (run 20738 (FetchOutcome.ok (Json.obj [("Count", Json.num 2),
        ("results", Json.arr [Json.obj [("id", Json.str "A")],
                              Json.obj [("id", Json.str "B")]])])) none).file
      = some "[\n    \x7b\n        \"id\": \"A\"\n    \x7d,\n    \x7b\n        \"id\": \"B\"\n    \x7d\n]" := by
  refine ⟨rfl, ?_⟩
  have h := C4_results_array_persisted 20738
    [("Count", Json.num 2),
     ("results", Json.arr [Json.obj [("id", Json.str "A")],
                           Json.obj [("id", Json.str "B")]])]
    [Json.obj [("id", Json.str "A")], Json.obj [("id", Json.str "B")]] none rfl
  rw [h.1]
  decide

/-- C5: for every fetch failure (any RequestException: network-level error or
non-2xx status raised by raise_for_status), the run prints the configuration
lines and the network-error diagnostic, issues no further output, leaves the
output file exactly as it was, and makes exactly one request. -/
theorem C5_fetch_failure (t : Nat) (e : String) (init : Option String) :
    run t (FetchOutcome.requestError e) init =
      { file := init, exitCode := 0,
        prints := configPrints t ++ [requestErrorPrint e], requests := 1 } := rfl

/-- C6: every run issues exactly one GET request, whatever the fetch outcome,
the shape of the document and the prior file state: there is no retry path. -/
theorem C6_exactly_one_request (t : Nat) (fetch : FetchOutcome)
    (init : Option String) : (run t fetch init).requests = 1 := by
  cases fetch with
  | requestError e => rfl
  | ok doc =>
      cases doc with
      | obj kvs => cases h : jsonLookup kvs "results" <;> simp only [run, h]
      | null => rfl
      | bool b => rfl
      | num n => rfl
      | str s => rfl
      | arr xs => rfl

/-- C7: whenever the document holds a value under results, the persist step
writes exactly the indent-4 JSON serialization of that value to the output
file, whatever content (or absence) the file had before: prior content is
truncated away and fully overwritten. -/
theorem C7_persist_overwrites (t : Nat) (kvs : List (String × Json)) (v : Json)
    (old : Option String) (h : jsonLookup kvs "results" = some v) :
    (run t (FetchOutcome.ok (Json.obj kvs)) old).file
      = some (jsonDumps 4 0 v) := by
  simp only [run, h]

/-- C7 witness: a null results value persisted over a pre-existing file. -/
theorem C7_witness :
    jsonLookup [("results", Json.null)] "results" = some Json.null ∧
    (run 3 (FetchOutcome.ok (Json.obj [("results", Json.null)]))
        (some "previous")).file = some (jsonDumps 4 0 Json.null) :=
  ⟨rfl, C7_persist_overwrites 3 [("results", Json.null)] Json.null
    (some "previous") rfl⟩

/-- C8: the requested window is exactly 1095 days, three times 365: the
fromDate parameter of the endpoint is the formatted calendar date of the
ordinal 1095 days before the current ordinal; concretely, for the current
date 2026-10-12 the fromDate is 2023-10-13, one day later than three calendar
years back, because the window spans the leap day of 2024. -/
theorem C8_window_1095_days :
    (∀ t : Nat, threeYearsAgo t = t - 1095) ∧
    (∀ t : Nat, API_ENDPOINT t =
      "https://api.nhtsa.gov/recalls/recallsByDateRange?fromDate=" ++
      fmtDate (t - 1095) ++ "&toDate=" ++ fmtDate t) ∧
    todayStr 20738 = "2026-10-12" ∧ startDateStr 20738 = "2023-10-13" :=
  ⟨fun _ => rfl, fun _ => rfl, by decide, by decide⟩

/-- C9: a missing results key does not stop the run: the script prints the
missing-key error, continues, prints the final completion line, and the
process ends with exit status zero (the file being left created but empty). -/
theorem C9_missing_results_run_completes (t : Nat) (kvs : List (String × Json))
    (init : Option String) (h : jsonLookup kvs "results" = none) :
    run t (FetchOutcome.ok (Json.obj kvs)) init =
      { file := some "", exitCode := 0,
        prints := configPrints t ++
          [fetchedPrint kvs, savingPrint t, missingResultsPrint, finalPrint],
        requests := 1 } := by
  simp only [run, h]

/-- C9 witness: the complete run record at a concrete document without
results, over no pre-existing file. -/
theorem C9_witness :
    jsonLookup [("Count", Json.str "n")] "results" = none ∧
    run 4 (FetchOutcome.ok (Json.obj [("Count", Json.str "n")])) none =
      { file := some "", exitCode := 0,
        prints := configPrints 4 ++
          [fetchedPrint [("Count", Json.str "n")], savingPrint 4,
           missingResultsPrint, finalPrint],
        requests := 1 } :=
  ⟨rfl, C9_missing_results_run_completes 4 [("Count", Json.str "n")] none rfl⟩

/-- C10: when the fetched document lacks the results key, the output file
exists after the run and holds the empty string (a zero-byte file), whatever
the file held before: the write-mode open truncates it before the subscript
raises KeyError. -/
theorem C10_missing_results_empty_file (t : Nat) (kvs : List (String × Json))
    (init : Option String) (h : jsonLookup kvs "results" = none) :
    (run t (FetchOutcome.ok (Json.obj kvs)) init).file = some "" := by
  simp only [run, h]

/-- C10 witness: the zero-byte file at a concrete document without results,
over a pre-existing nonempty file. -/
theorem C10_witness :
    jsonLookup [("foo", Json.bool true)] "results" = none ∧
    (run 5 (FetchOutcome.ok (Json.obj [("foo", Json.bool true)]))
        (some "nonempty")).file = some "" :=
  ⟨rfl, C10_missing_results_empty_file 5 [("foo", Json.bool true)]
    (some "nonempty") rfl⟩

end Ingestion
